import Mathlib

/-!
Verification development for the library-management core
(library_service.py and the payment-settlement path).

Shallow embedding conventions:
- Instants are modelled as integer seconds; the whole-day difference
  computed by Python timedelta days (which floors toward negative
  infinity) is Int.fdiv of the second difference by 86400.
- Currency is modelled in integer cents.  Every monetary value the
  source produces (multiples of 0.50, the 15.00 cap, two-decimal
  amounts) is an exact dyadic binary float, so Python float arithmetic
  and round(x, 2) coincide with exact arithmetic in cents on the
  reachable values.
- The SQLite store is modelled as an explicit state: a list of books
  and a list of borrow records.  Accessor writes that may fail
  (insert_book, insert_borrow_record, update_book_availability,
  update_borrow_record_return_date return a success bool in the
  source) are modelled by threading explicit success flags; a failed
  write leaves the store unchanged.
- Python str.isdigit / strip / LOWER are modelled on ASCII; calendar
  rendering of dates in success messages is modelled by a numeric
  rendering of the instant, which no claim inspects.
-/

namespace LibraryService

/-- Row of the books table (database schema: id, title, author, isbn,
total_copies, available_copies). -/
structure Book where
  id : Nat
  title : String
  author : String
  isbn : String
  total_copies : Int
  available_copies : Int
deriving DecidableEq, Repr

/-- Row of the borrow_records table.  return_date null (none) means the
loan is open. -/
structure BorrowRecord where
  patron_id : String
  book_id : Nat
  borrow_date : Int
  due_date : Int
  return_date : Option Int
deriving DecidableEq, Repr

/-- The persistent store: books table and borrow_records table. -/
structure LibraryState where
  books : List Book
  records : List BorrowRecord
deriving DecidableEq, Repr

/-- Python str.strip: drop whitespace from both ends (character-list
form of the string). -/
def pyStrip (s : String) : String :=
  ⟨((s.data.dropWhile Char.isWhitespace).reverse.dropWhile Char.isWhitespace).reverse⟩

/-- Patron id validation used by borrow_book_by_patron,
return_book_by_patron and get_patron_status_report in the source:
`not patron_id or not patron_id.isdigit() or len(patron_id) != 6`
(the embedding reads digits as ASCII digits). -/
def validPatronId (patron_id : String) : Bool :=
  patron_id.data.length == 6 && patron_id.data.all Char.isDigit

/-- Database accessor get_book_by_id: first row of books with this id. -/
def get_book_by_id (s : LibraryState) (book_id : Nat) : Option Book :=
  s.books.find? (fun b => b.id == book_id)

/-- Database accessor get_book_by_isbn: first row of books with this isbn. -/
def get_book_by_isbn (s : LibraryState) (isbn : String) : Option Book :=
  s.books.find? (fun b => b.isbn == isbn)

/-- A record is open when its return_date is null. -/
def isOpenRecord (r : BorrowRecord) : Bool :=
  r.return_date.isNone

/-- Database accessor get_patron_borrow_count: number of open borrow
records held by the patron across all books. -/
def get_patron_borrow_count (s : LibraryState) (patron_id : String) : Nat :=
  (s.records.filter (fun r => r.patron_id == patron_id && isOpenRecord r)).length

/-- Database accessor insert_book: appends a row with a fresh surrogate
id (strictly greater than every existing id, modelling autoincrement). -/
def insert_book (s : LibraryState) (title author isbn : String)
    (total available : Int) : LibraryState :=
  { s with books := s.books ++
      [⟨(s.books.map (fun b => b.id)).foldr max 0 + 1, title, author, isbn, total, available⟩] }

/-- Database accessor insert_borrow_record: appends an open record. -/
def insert_borrow_record (s : LibraryState) (patron_id : String) (book_id : Nat)
    (borrow_date due_date : Int) : LibraryState :=
  { s with records := s.records ++ [⟨patron_id, book_id, borrow_date, due_date, none⟩] }

/-- Database accessor update_book_availability: UPDATE books SET
available_copies = available_copies + delta WHERE id = book_id. -/
def update_book_availability (s : LibraryState) (book_id : Nat) (delta : Int) : LibraryState :=
  { s with books := s.books.map (fun b =>
      if b.id == book_id then { b with available_copies := b.available_copies + delta } else b) }

/-- Database accessor update_borrow_record_return_date: UPDATE
borrow_records SET return_date = d WHERE patron_id = p AND book_id = b
AND return_date IS NULL. -/
def update_borrow_record_return_date (s : LibraryState) (patron_id : String)
    (book_id : Nat) (return_date : Int) : LibraryState :=
  { s with records := s.records.map (fun r =>
      if r.patron_id == patron_id && r.book_id == book_id && isOpenRecord r then
        { r with return_date := some return_date } else r) }

/-- The open-record query issued inline by return_book_by_patron:
SELECT * FROM borrow_records WHERE patron_id = ? AND book_id = ? AND
return_date IS NULL (first matching row). -/
def find_open_borrow_record (s : LibraryState) (patron_id : String)
    (book_id : Nat) : Option BorrowRecord :=
  s.records.find? (fun r => r.patron_id == patron_id && r.book_id == book_id && isOpenRecord r)

/-- The latest-record query issued by calculate_late_fee_for_book:
SELECT * FROM borrow_records WHERE patron_id = ? AND book_id = ?
ORDER BY borrow_date DESC LIMIT 1. -/
def latest_borrow_record (s : LibraryState) (patron_id : String)
    (book_id : Nat) : Option BorrowRecord :=
  (s.records.filter (fun r => r.patron_id == patron_id && r.book_id == book_id)).foldl
    (fun acc r =>
      match acc with
      | none => some r
      | some best => if r.borrow_date > best.borrow_date then some r else acc) none

/-- Result shape of calculate_late_fee_for_book; fee_amount in cents. -/
structure FeeAssessment where
  fee_amount : Int
  days_overdue : Int
  status : String
deriving DecidableEq, Repr

/-- Python timedelta day count between two instants in seconds
(floors toward negative infinity, as timedelta.days does). -/
def daysBetween (later earlier : Int) : Int :=
  Int.fdiv (later - earlier) 86400

/-- Reference instant of a record: return_date when the record is
closed, otherwise the supplied clock instant (the source reads
datetime.now() at this point). -/
def checkDateOf (r : BorrowRecord) (now : Int) : Int :=
  match r.return_date with
  | some d => d
  | none => now

/-- Whole days overdue of a record at a clock instant. -/
def overdueDays (r : BorrowRecord) (now : Int) : Int :=
  daysBetween (checkDateOf r now) r.due_date

/-- Fee assessment of one borrow record, the per-record body of
calculate_late_fee_for_book (source lines 197 to 239): tiered fee of
50 cents per day for the first 7 overdue days, 100 cents per day
beyond, capped at 1500 cents.  round(fee, 2) of the source is the
identity on these exact amounts. -/
def assessRecord (r : BorrowRecord) (now : Int) : FeeAssessment :=
  let days_overdue := overdueDays r now
  if days_overdue ≤ 0 then
    ⟨0, 0, "Not overdue"⟩
  else
    let fee_amount := if days_overdue ≤ 7 then days_overdue * 50
      else 7 * 50 + (days_overdue - 7) * 100
    let fee_amount := if fee_amount > 1500 then 1500 else fee_amount
    ⟨fee_amount, days_overdue, if days_overdue > 0 then "Overdue" else "Not overdue"⟩

/-- calculate_late_fee_for_book.  The source takes only (patron_id,
book_id) and reads the store and, for open records, datetime.now();
the embedding threads the store s and the ambient clock value now
explicitly. -/
def calculate_late_fee_for_book (s : LibraryState) (patron_id : String)
    (book_id : Nat) (now : Int) : FeeAssessment :=
  match latest_borrow_record s patron_id book_id with
  | none => ⟨0, 0, "No borrow record found"⟩
  | some r => assessRecord r now

/-- Rendering of a cent amount as a two-decimal dollar string, used in
the return-success message (Python f-string {fee_amount:.2f}). -/
def formatCents (c : Int) : String :=
  let n := c.toNat
  toString (n / 100) ++ "." ++ (if n % 100 < 10 then "0" else "") ++ toString (n % 100)

/-- add_book_to_catalog (source lines 14 to 57).  total_copies is an
Int (the isinstance int check of the source is carried by the type);
insert_ok models the success bool of the insert_book accessor. -/
def add_book_to_catalog (s : LibraryState) (title author isbn : String)
    (total_copies : Int) (insert_ok : Bool) : (Bool × String) × LibraryState :=
  if pyStrip title == "" then ((false, "Title is required."), s)
  else if (pyStrip title).data.length > 200 then
    ((false, "Title must be less than 200 characters."), s)
  else if pyStrip author == "" then ((false, "Author is required."), s)
  else if (pyStrip author).data.length > 100 then
    ((false, "Author must be less than 100 characters."), s)
  else if isbn.data.length ≠ 13 then ((false, "ISBN must be exactly 13 digits."), s)
  else if total_copies ≤ 0 then ((false, "Total copies must be a positive integer."), s)
  else
    match get_book_by_isbn s isbn with
    | some _ => ((false, "A book with this ISBN already exists."), s)
    | none =>
      if insert_ok then
        ((true, "Book \"" ++ pyStrip title ++ "\" has been successfully added to the catalog."),
          insert_book s (pyStrip title) (pyStrip author) isbn total_copies total_copies)
      else ((false, "Database error occurred while adding the book."), s)

/-- Success flags of the two persistence writes issued by
borrow_book_by_patron (insert_borrow_record, update_book_availability). -/
structure BorrowEffects where
  insert_ok : Bool
  update_ok : Bool
deriving DecidableEq, Repr

/-- borrow_book_by_patron (source lines 59 to 102).  now models the
datetime.now() read at line 90; the due date in the success message is
rendered numerically (calendar formatting is outside the model). -/
def borrow_book_by_patron (s : LibraryState) (patron_id : String) (book_id : Nat)
    (now : Int) (eff : BorrowEffects) : (Bool × String) × LibraryState :=
  if !validPatronId patron_id then
    ((false, "Invalid patron ID. Must be exactly 6 digits."), s)
  else
    match get_book_by_id s book_id with
    | none => ((false, "Book not found."), s)
    | some book =>
      if book.available_copies ≤ 0 then
        ((false, "This book is currently not available."), s)
      else if get_patron_borrow_count s patron_id ≥ 5 then
        ((false, "You have reached the maximum borrowing limit of 5 books."), s)
      else
        let due_date := now + 14 * 86400
        if !eff.insert_ok then
          ((false, "Database error occurred while creating borrow record."), s)
        else
          let s1 := insert_borrow_record s patron_id book_id now due_date
          if !eff.update_ok then
            ((false, "Database error occurred while updating book availability."), s1)
          else
            ((true, "Successfully borrowed \"" ++ book.title ++ "\". Due date: " ++
                toString due_date ++ "."),
              update_book_availability s1 book_id (-1))

/-- Success flags of the two persistence writes issued by
return_book_by_patron (update_borrow_record_return_date,
update_book_availability). -/
structure ReturnEffects where
  close_ok : Bool
  update_ok : Bool
deriving DecidableEq, Repr

/-- return_book_by_patron (source lines 104 to 160).  now models the
datetime.now() read at line 138 (and threads into the late-fee
computation performed on the updated store). -/
def return_book_by_patron (s : LibraryState) (patron_id : String) (book_id : Nat)
    (now : Int) (eff : ReturnEffects) : (Bool × String) × LibraryState :=
  if !validPatronId patron_id then
    ((false, "Invalid patron ID. Must be exactly 6 digits."), s)
  else
    match get_book_by_id s book_id with
    | none => ((false, "Book not found."), s)
    | some book =>
      match find_open_borrow_record s patron_id book_id with
      | none => ((false, "No active borrow record found for this patron and book."), s)
      | some _ =>
        if !eff.close_ok then
          ((false, "Database error occurred while updating return date."), s)
        else
          let s1 := update_borrow_record_return_date s patron_id book_id now
          if !eff.update_ok then
            ((false, "Database error occurred while updating book availability."), s1)
          else
            let s2 := update_book_availability s1 book_id 1
            let info := calculate_late_fee_for_book s2 patron_id book_id now
            let msg := "Successfully returned \"" ++ book.title ++ "\"." ++
              (if info.fee_amount > 0 then
                " Late fee: $" ++ formatCents info.fee_amount ++ " (" ++
                  toString info.days_overdue ++ " days overdue)."
              else " No late fees.")
            ((true, msg), s2)

/-- Lexicographic order on character lists (SQL text ordering on
codepoints). -/
def lexLe : List Char → List Char → Bool
  | [], _ => true
  | _ :: _, [] => false
  | a :: as, b :: bs => if a = b then lexLe as bs else decide (a < b)

/-- Ordering step of ORDER BY title: insertion into a title-sorted list. -/
def insertByTitle (b : Book) : List Book → List Book
  | [] => [b]
  | c :: cs => if lexLe b.title.data c.title.data then b :: c :: cs else c :: insertByTitle b cs

/-- ORDER BY title ascending, as insertion sort. -/
def sortByTitle (l : List Book) : List Book :=
  l.foldr insertByTitle []

/-- search_books_in_catalog (source lines 241 to 295).  isbn search is
an exact match; title and author are case-insensitive substring
matches (SQL LIKE with the term enclosed in percent wildcards; LIKE
metacharacters inside the term itself are not modelled). -/
def search_books_in_catalog (s : LibraryState) (search_term : String)
    (search_type : String) : List Book :=
  if search_term == "" then []
  else if !(["title", "author", "isbn"].contains search_type) then []
  else if search_type == "isbn" then
    sortByTitle (s.books.filter (fun b => b.isbn == search_term))
  else if search_type == "title" then
    sortByTitle (s.books.filter (fun b =>
      decide (search_term.data.map Char.toLower <:+: b.title.data.map Char.toLower)))
  else if search_type == "author" then
    sortByTitle (s.books.filter (fun b =>
      decide (search_term.data.map Char.toLower <:+: b.author.data.map Char.toLower)))
  else []

/-- Normal return or raised fault of a payment-gateway call. -/
inductive GatewayOutcome (α : Type) where
  | ok : α → GatewayOutcome α
  | fault : String → GatewayOutcome α
deriving DecidableEq, Repr

/-- Fee information as consumed by pay_late_fees: the days and status
fields plus an optional fee_amount in cents (none models a result dict
lacking the fee_amount key, as stubbed in the tests). -/
structure FeeInfo where
  fee_amount : Option Int
  days_overdue : Int
  status : String
deriving DecidableEq, Repr

/-- Fee amount of an optional fee-information value: none when the
information is missing or lacks the amount. -/
def feeAmountOf : Option FeeInfo → Option Int
  | none => none
  | some i => i.fee_amount

/-- Modelled from the spec: pay_late_fees (services/library_service.py,
absent from src; only its tests are present).  Spec section 4.5 with
the test contract of TestPayLateFees: validate the patron id, compute
the fee (fee_info and book are the values the collaborators
calculate_late_fee_for_book and get_book_by_id return, stubbed in the
tests), refuse missing fee information, zero fees and unknown books
without contacting the gateway, otherwise call
gateway.process_payment; a raised gateway fault is caught.  The result
pairs the (success, message, transaction id) triple with the number of
gateway calls made. -/
def pay_late_fees (patron_id : String) (fee_info : Option FeeInfo)
    (book : Option Book)
    (gateway : GatewayOutcome (Bool × Option String × String)) :
    (Bool × String × Option String) × Nat :=
  if !validPatronId patron_id then
    ((false, "Invalid patron ID", none), 0)
  else
    match feeAmountOf fee_info with
    | none => ((false, "Unable to calculate late fees", none), 0)
    | some amount =>
      if amount == 0 then ((false, "No late fees to pay", none), 0)
      else
        match book with
        | none => ((false, "Book not found", none), 0)
        | some _ =>
          match gateway with
          | .fault text => ((false, "Payment processing error: " ++ text, none), 1)
          | .ok (true, txn, _) => ((true, "Payment successful!", txn), 1)
          | .ok (false, _, msg) => ((false, "Payment failed: " ++ msg, none), 1)

/-- Modelled from the spec: refund_late_fee_payment
(services/library_service.py, absent from src; only its tests are
present).  Spec section 4.5 with the test contract of
TestRefundLateFeePayment: require the txn_ prefix on the transaction
id, a positive amount and at most the 15.00 (1500 cents) fee ceiling,
each rejected without contacting the gateway; otherwise call
gateway.refund_payment.  On a normal gateway return the success flag
is propagated; the decline branch follows test_refund_declined_by_gateway,
which requires the message to read Refund failed: followed by the
gateway message (the success message is passed through verbatim).  A
raised gateway fault is caught.  The result pairs (success, message)
with the number of gateway calls made. -/
def refund_late_fee_payment (transaction_id : String) (amount : Int)
    (gateway : GatewayOutcome (Bool × String)) : (Bool × String) × Nat :=
  if !(("txn_".data).isPrefixOf transaction_id.data) then
    ((false, "Invalid transaction ID"), 0)
  else if amount ≤ 0 then
    ((false, "Refund amount must be greater than 0"), 0)
  else if amount > 1500 then
    ((false, "Refund amount exceeds maximum late fee"), 0)
  else
    match gateway with
    | .fault text => ((false, "Refund processing error: " ++ text), 1)
    | .ok (true, msg) => ((true, msg), 1)
    | .ok (false, msg) => ((false, "Refund failed: " ++ msg), 1)

/-- One borrowing-engine operation against the store, with an
arbitrary pattern of persistence-write successes and failures. -/
inductive Step : LibraryState → LibraryState → Prop
  | borrow (s : LibraryState) (pid : String) (bid : Nat) (now : Int) (eff : BorrowEffects) :
      Step s (borrow_book_by_patron s pid bid now eff).2
  | ret (s : LibraryState) (pid : String) (bid : Nat) (now : Int) (eff : ReturnEffects) :
      Step s (return_book_by_patron s pid bid now eff).2

/-- One borrowing-engine operation in which every persistence write
succeeds. -/
inductive StepOK : LibraryState → LibraryState → Prop
  | borrow (s : LibraryState) (pid : String) (bid : Nat) (now : Int) :
      StepOK s (borrow_book_by_patron s pid bid now ⟨true, true⟩).2
  | ret (s : LibraryState) (pid : String) (bid : Nat) (now : Int) :
      StepOK s (return_book_by_patron s pid bid now ⟨true, true⟩).2

/-- States reachable by any sequence of borrow and return operations,
persistence failures included. -/
def Reachable : LibraryState → LibraryState → Prop :=
  Relation.ReflTransGen Step

/-- States reachable by sequences of borrow and return operations in
which every persistence write succeeds. -/
def ReachableOK : LibraryState → LibraryState → Prop :=
  Relation.ReflTransGen StepOK

/-- Number of open borrow records of one book. -/
def openCount (s : LibraryState) (bid : Nat) : Nat :=
  s.records.countP (fun r => r.book_id == bid && isOpenRecord r)

/-- Book ids are pairwise distinct (database primary key). -/
def idsNodup (s : LibraryState) : Prop :=
  (s.books.map (fun b => b.id)).Nodup

/-- Every book has a non-negative available-copies count. -/
def booksNonneg (s : LibraryState) : Prop :=
  ∀ b ∈ s.books, 0 ≤ b.available_copies

/-- Every book has available copies plus open loans within its total. -/
def availBound (s : LibraryState) : Prop :=
  ∀ b ∈ s.books, b.available_copies + (openCount s b.id : Int) ≤ b.total_copies

/-- Invariant maintained by arbitrary (failure-including) operation
sequences. -/
def InvWeak (s : LibraryState) : Prop :=
  idsNodup s ∧ booksNonneg s

/-- Invariant maintained by failure-free operation sequences. -/
def InvStrong (s : LibraryState) : Prop :=
  idsNodup s ∧ booksNonneg s ∧ availBound s

/-- Initial condition of the invariant claims: distinct book ids,
every book freshly added (available_copies = total_copies, not
negative) and no borrow records yet. -/
def FreshState (s : LibraryState) : Prop :=
  idsNodup s ∧ s.records = [] ∧
    ∀ b ∈ s.books, 0 ≤ b.available_copies ∧ b.available_copies = b.total_copies

instance (s : LibraryState) : Decidable (idsNodup s) := by
  unfold idsNodup; infer_instance

instance (s : LibraryState) : Decidable (booksNonneg s) := by
  unfold booksNonneg; infer_instance

instance (s : LibraryState) : Decidable (availBound s) := by
  unfold availBound; infer_instance

instance (s : LibraryState) : Decidable (FreshState s) := by
  unfold FreshState; infer_instance

/-- Concrete store with one freshly added single-copy book, used by
the concrete instantiations below. -/
def exFresh : LibraryState :=
  ⟨[⟨1, "T", "A", "1234567890123", 1, 1⟩], []⟩

/-- Store after a borrow whose availability decrement failed: the open
record exists but available_copies was not decremented. -/
def exAfterBorrowFail : LibraryState :=
  (borrow_book_by_patron exFresh "123456" 1 0 ⟨true, false⟩).2

/-- Store after the subsequent fully successful return: the increment
pushes available_copies above total_copies. -/
def exAfterReturn : LibraryState :=
  (return_book_by_patron exAfterBorrowFail "123456" 1 0 ⟨true, true⟩).2

theorem update_books_map_id (s : LibraryState) (bid : Nat) (d : Int) :
    (update_book_availability s bid d).books.map (fun b => b.id) =
      s.books.map (fun b => b.id) := by
  unfold update_book_availability
  rw [List.map_map]
  refine List.map_congr_left ?_
  intro a _
  by_cases h : a.id = bid <;> simp [h]

theorem find_unique_by_id (l : List Book) (bid : Nat)
    (hn : (l.map (fun b => b.id)).Nodup) (b : Book) (hb : b ∈ l) (hid : b.id = bid) :
    l.find? (fun x => x.id == bid) = some b := by
  induction l with
  | nil => cases hb
  | cons c cs ih =>
    rw [List.map_cons, List.nodup_cons] at hn
    rcases List.mem_cons.mp hb with rfl | hmem
    · exact List.find?_cons_of_pos cs (by simp [hid])
    · have hne : (c.id == bid) = false := by
        rw [beq_eq_false_iff_ne]
        intro hcid
        exact hn.1 (by rw [hcid, ← hid]; exact List.mem_map_of_mem _ hmem)
      rw [List.find?_cons_of_neg cs (by simp [hne])]
      exact ih hn.2 hmem

theorem openCount_insert (s : LibraryState) (pid : String) (bid x : Nat) (bd dd : Int) :
    openCount (insert_borrow_record s pid bid bd dd) x =
      openCount s x + (if bid == x then 1 else 0) := by
  unfold openCount insert_borrow_record
  rw [List.countP_append]
  simp [List.countP_cons, isOpenRecord]

theorem openCount_close_other (s : LibraryState) (pid : String) (bid x : Nat)
    (d : Int) (hx : x ≠ bid) :
    openCount (update_borrow_record_return_date s pid bid d) x = openCount s x := by
  unfold openCount update_borrow_record_return_date
  rw [List.countP_map]
  refine List.countP_congr ?_
  intro r _
  by_cases hp : r.patron_id = pid <;> by_cases hb : r.book_id = bid <;>
    by_cases ho : r.return_date = none <;>
    simp [Function.comp, hp, hb, ho, isOpenRecord, Ne.symm hx]

theorem openCount_close_add (l : List BorrowRecord) (pid : String) (bid : Nat) (d : Int) :
    (l.map (fun r => if r.patron_id == pid && r.book_id == bid && isOpenRecord r then
        { r with return_date := some d } else r)).countP
        (fun r => r.book_id == bid && isOpenRecord r)
      + l.countP (fun r => r.patron_id == pid && r.book_id == bid && isOpenRecord r)
    = l.countP (fun r => r.book_id == bid && isOpenRecord r) := by
  induction l with
  | nil => simp
  | cons r rs ih =>
    simp only [List.map_cons, List.countP_cons]
    by_cases hp : r.patron_id = pid <;> by_cases hb : r.book_id = bid <;>
      by_cases ho : r.return_date = none <;>
      simp [hp, hb, ho, isOpenRecord, Function.comp] at ih ⊢ <;> omega

theorem matchCount_pos (s : LibraryState) (pid : String) (bid : Nat) (r : BorrowRecord)
    (h : find_open_borrow_record s pid bid = some r) :
    0 < s.records.countP
      (fun q => q.patron_id == pid && q.book_id == bid && isOpenRecord q) := by
  have hmem := List.mem_of_find?_eq_some h
  have hp := List.find?_some h
  exact List.countP_pos_iff.mpr ⟨r, hmem, hp⟩

theorem borrow_state_cases (s : LibraryState) (pid : String) (bid : Nat) (now : Int)
    (eff : BorrowEffects) :
    (borrow_book_by_patron s pid bid now eff).2 = s ∨
    ((∃ book, get_book_by_id s bid = some book ∧ 0 < book.available_copies) ∧
      ((eff.update_ok = false ∧
          (borrow_book_by_patron s pid bid now eff).2 =
            insert_borrow_record s pid bid now (now + 14 * 86400)) ∨
        (borrow_book_by_patron s pid bid now eff).2 =
          update_book_availability
            (insert_borrow_record s pid bid now (now + 14 * 86400)) bid (-1))) := by
  unfold borrow_book_by_patron
  split
  · exact Or.inl rfl
  · split
    · exact Or.inl rfl
    · next book heq =>
      split
      · exact Or.inl rfl
      · next havail =>
        split
        · exact Or.inl rfl
        · split
          · exact Or.inl rfl
          · next hins =>
            split
            · next hupd =>
              refine Or.inr ⟨⟨book, heq, by omega⟩, Or.inl ⟨?_, rfl⟩⟩
              simpa using hupd
            · exact Or.inr ⟨⟨book, heq, by omega⟩, Or.inr rfl⟩

theorem ret_state_cases (s : LibraryState) (pid : String) (bid : Nat) (now : Int)
    (eff : ReturnEffects) :
    (return_book_by_patron s pid bid now eff).2 = s ∨
    ((∃ r, find_open_borrow_record s pid bid = some r) ∧
      ((return_book_by_patron s pid bid now eff).2 =
          update_borrow_record_return_date s pid bid now ∨
        (return_book_by_patron s pid bid now eff).2 =
          update_book_availability
            (update_borrow_record_return_date s pid bid now) bid 1)) := by
  unfold return_book_by_patron
  split
  · exact Or.inl rfl
  · split
    · exact Or.inl rfl
    · split
      · exact Or.inl rfl
      · next r hrec =>
        split
        · exact Or.inl rfl
        · split
          · exact Or.inr ⟨⟨r, hrec⟩, Or.inl rfl⟩
          · exact Or.inr ⟨⟨r, hrec⟩, Or.inr rfl⟩

theorem openCount_update_avail (s : LibraryState) (bid : Nat) (d : Int) (x : Nat) :
    openCount (update_book_availability s bid d) x = openCount s x := rfl

theorem openCount_close_self (s : LibraryState) (pid : String) (bid : Nat) (d : Int) :
    openCount (update_borrow_record_return_date s pid bid d) bid +
      s.records.countP (fun q => q.patron_id == pid && q.book_id == bid && isOpenRecord q) =
    openCount s bid :=
  openCount_close_add s.records pid bid d

theorem borrowFinal_weak (s : LibraryState) (pid : String) (bid : Nat) (bd dd : Int)
    (book : Book) (hbook : get_book_by_id s bid = some book)
    (hpos : 0 < book.available_copies) (h : InvWeak s) :
    InvWeak (update_book_availability (insert_borrow_record s pid bid bd dd) bid (-1)) := by
  obtain ⟨hn, hnn⟩ := h
  refine ⟨?_, ?_⟩
  · unfold idsNodup at hn ⊢
    rw [update_books_map_id]
    exact hn
  · intro b hb
    obtain ⟨a, ha, rfl⟩ := List.mem_map.mp hb
    have ha2 : a ∈ s.books := ha
    by_cases hid : a.id = bid
    · have hfind : s.books.find? (fun x => x.id == bid) = some a :=
        find_unique_by_id s.books bid hn a ha2 hid
      have hab : a = book := by
        have hgb : get_book_by_id s bid = some book := hbook
        unfold get_book_by_id at hgb
        rw [hfind] at hgb
        exact Option.some.inj hgb
      have hpos2 : 0 < a.available_copies := by rw [hab]; exact hpos
      simp only [hid, beq_self_eq_true, if_true]
      omega
    · have hne : (a.id == bid) = false := by rw [beq_eq_false_iff_ne]; exact hid
      simp only [hne, Bool.false_eq_true, if_false]
      exact hnn a ha2

theorem borrowFinal_bound (s : LibraryState) (pid : String) (bid : Nat) (bd dd : Int)
    (h : availBound s) :
    availBound (update_book_availability (insert_borrow_record s pid bid bd dd) bid (-1)) := by
  intro b hb
  obtain ⟨a, ha, rfl⟩ := List.mem_map.mp hb
  have ha2 : a ∈ s.books := ha
  have hbound := h a ha2
  have hcount : ∀ x, openCount
      (update_book_availability (insert_borrow_record s pid bid bd dd) bid (-1)) x =
      openCount s x + (if bid == x then 1 else 0) := by
    intro x
    rw [openCount_update_avail, openCount_insert]
  by_cases hid : a.id = bid
  · have hbeq : (a.id == bid) = true := by rw [beq_iff_eq]; exact hid
    simp only [hbeq, if_true]
    simp only [hcount]
    have hbidx : (bid == a.id) = true := by rw [beq_iff_eq]; exact hid.symm
    simp only [hbidx, if_true]
    push_cast
    omega
  · have hne : (a.id == bid) = false := by rw [beq_eq_false_iff_ne]; exact hid
    simp only [hne, Bool.false_eq_true, if_false]
    simp only [hcount]
    have hbidx : (bid == a.id) = false := by
      rw [beq_eq_false_iff_ne]; exact fun hc => hid hc.symm
    simp only [hbidx, Bool.false_eq_true, if_false]
    push_cast
    omega

theorem retFinal_weak (s : LibraryState) (pid : String) (bid : Nat) (d : Int)
    (h : InvWeak s) :
    InvWeak (update_book_availability (update_borrow_record_return_date s pid bid d) bid 1) := by
  obtain ⟨hn, hnn⟩ := h
  refine ⟨?_, ?_⟩
  · unfold idsNodup at hn ⊢
    rw [update_books_map_id]
    exact hn
  · intro b hb
    obtain ⟨a, ha, rfl⟩ := List.mem_map.mp hb
    have ha2 : a ∈ s.books := ha
    have := hnn a ha2
    by_cases hid : a.id = bid
    · have hbeq : (a.id == bid) = true := by rw [beq_iff_eq]; exact hid
      simp only [hbeq, if_true]
      omega
    · have hne : (a.id == bid) = false := by rw [beq_eq_false_iff_ne]; exact hid
      simp only [hne, Bool.false_eq_true, if_false]
      exact this

theorem retFinal_bound (s : LibraryState) (pid : String) (bid : Nat) (d : Int)
    (r : BorrowRecord) (hr : find_open_borrow_record s pid bid = some r)
    (h : availBound s) :
    availBound (update_book_availability (update_borrow_record_return_date s pid bid d) bid 1) := by
  intro b hb
  obtain ⟨a, ha, rfl⟩ := List.mem_map.mp hb
  have ha2 : a ∈ s.books := ha
  have hbound := h a ha2
  by_cases hid : a.id = bid
  · have hbeq : (a.id == bid) = true := by rw [beq_iff_eq]; exact hid
    simp only [hbeq, if_true]
    have hself := openCount_close_self s pid bid d
    have hmatch := matchCount_pos s pid bid r hr
    have hoc : openCount
        (update_book_availability (update_borrow_record_return_date s pid bid d) bid 1)
        a.id = openCount (update_borrow_record_return_date s pid bid d) bid := by
      rw [openCount_update_avail, hid]
    simp only [hoc]
    rw [hid] at hbound
    omega
  · have hne : (a.id == bid) = false := by rw [beq_eq_false_iff_ne]; exact hid
    simp only [hne, Bool.false_eq_true, if_false]
    have hoc : openCount
        (update_book_availability (update_borrow_record_return_date s pid bid d) bid 1)
        a.id = openCount s a.id := by
      rw [openCount_update_avail, openCount_close_other s pid bid a.id d hid]
    simp only [hoc]
    exact hbound

theorem invWeak_borrow (s : LibraryState) (pid : String) (bid : Nat) (now : Int)
    (eff : BorrowEffects) (h : InvWeak s) :
    InvWeak (borrow_book_by_patron s pid bid now eff).2 := by
  rcases borrow_state_cases s pid bid now eff with heq | ⟨⟨book, hbook, hpos⟩, hc⟩
  · rw [heq]; exact h
  rcases hc with ⟨_, heq⟩ | heq
  · rw [heq]; exact h
  · rw [heq]; exact borrowFinal_weak s pid bid now (now + 14 * 86400) book hbook hpos h

theorem invWeak_ret (s : LibraryState) (pid : String) (bid : Nat) (now : Int)
    (eff : ReturnEffects) (h : InvWeak s) :
    InvWeak (return_book_by_patron s pid bid now eff).2 := by
  rcases ret_state_cases s pid bid now eff with heq | ⟨_, hc⟩
  · rw [heq]; exact h
  rcases hc with heq | heq
  · rw [heq]; exact h
  · rw [heq]; exact retFinal_weak s pid bid now h

theorem invStrong_borrow (s : LibraryState) (pid : String) (bid : Nat) (now : Int)
    (h : InvStrong s) :
    InvStrong (borrow_book_by_patron s pid bid now ⟨true, true⟩).2 := by
  obtain ⟨hn, hnn, hav⟩ := h
  rcases borrow_state_cases s pid bid now ⟨true, true⟩ with heq | ⟨⟨book, hbook, hpos⟩, hc⟩
  · rw [heq]; exact ⟨hn, hnn, hav⟩
  rcases hc with ⟨hfalse, _⟩ | heq
  · simp at hfalse
  · rw [heq]
    have hw := borrowFinal_weak s pid bid now (now + 14 * 86400) book hbook hpos ⟨hn, hnn⟩
    exact ⟨hw.1, hw.2, borrowFinal_bound s pid bid now (now + 14 * 86400) hav⟩

theorem invStrong_ret (s : LibraryState) (pid : String) (bid : Nat) (now : Int)
    (h : InvStrong s) :
    InvStrong (return_book_by_patron s pid bid now ⟨true, true⟩).2 := by
  obtain ⟨hn, hnn, hav⟩ := h
  rcases ret_state_cases s pid bid now ⟨true, true⟩ with heq | ⟨⟨r, hr⟩, hc⟩
  · rw [heq]; exact ⟨hn, hnn, hav⟩
  rcases hc with heq | heq
  · rw [heq]
    refine ⟨hn, hnn, ?_⟩
    intro b hb
    have hb2 : b ∈ s.books := hb
    have hbound := hav b hb2
    by_cases hid : b.id = bid
    · have hself := openCount_close_self s pid bid now
      rw [hid] at hbound ⊢
      omega
    · rw [openCount_close_other s pid bid b.id now hid]
      exact hbound
  · rw [heq]
    have hw := retFinal_weak s pid bid now ⟨hn, hnn⟩
    exact ⟨hw.1, hw.2, retFinal_bound s pid bid now r hr hav⟩

theorem reach_invWeak (s t : LibraryState) (h : Relation.ReflTransGen Step s t)
    (hs : InvWeak s) : InvWeak t := by
  induction h with
  | refl => exact hs
  | tail _ hstep ih =>
    cases hstep with
    | borrow pid bid now eff => exact invWeak_borrow _ pid bid now eff ih
    | ret pid bid now eff => exact invWeak_ret _ pid bid now eff ih

theorem reach_invStrong (s t : LibraryState) (h : Relation.ReflTransGen StepOK s t)
    (hs : InvStrong s) : InvStrong t := by
  induction h with
  | refl => exact hs
  | tail _ hstep ih =>
    cases hstep with
    | borrow pid bid now => exact invStrong_borrow _ pid bid now ih
    | ret pid bid now => exact invStrong_ret _ pid bid now ih

theorem fresh_invStrong (s : LibraryState) (h : FreshState s) : InvStrong s := by
  obtain ⟨hn, hrec, hbooks⟩ := h
  refine ⟨hn, fun b hb => (hbooks b hb).1, ?_⟩
  intro b hb
  have hoc : openCount s b.id = 0 := by
    unfold openCount
    rw [hrec]
    rfl
  rw [hoc]
  have := hbooks b hb
  omega

theorem borrow_result_eq (s : LibraryState) (pid : String) (bid : Nat) (now : Int)
    (eff : BorrowEffects) :
    (borrow_book_by_patron s pid bid now eff).1 =
      if !validPatronId pid then (false, "Invalid patron ID. Must be exactly 6 digits.")
      else
        match get_book_by_id s bid with
        | none => (false, "Book not found.")
        | some book =>
          if book.available_copies ≤ 0 then (false, "This book is currently not available.")
          else if get_patron_borrow_count s pid ≥ 5 then
            (false, "You have reached the maximum borrowing limit of 5 books.")
          else if !eff.insert_ok then
            (false, "Database error occurred while creating borrow record.")
          else if !eff.update_ok then
            (false, "Database error occurred while updating book availability.")
          else (true, "Successfully borrowed \"" ++ book.title ++ "\". Due date: " ++
            toString (now + 14 * 86400) ++ ".") := by
  unfold borrow_book_by_patron
  split
  · rfl
  · split
    · rfl
    · split
      · rfl
      · split
        · rfl
        · split
          · rfl
          · split
            · rfl
            · rfl

theorem ret_result_eq (s : LibraryState) (pid : String) (bid : Nat) (now : Int)
    (eff : ReturnEffects) :
    (return_book_by_patron s pid bid now eff).1 =
      if !validPatronId pid then (false, "Invalid patron ID. Must be exactly 6 digits.")
      else
        match get_book_by_id s bid with
        | none => (false, "Book not found.")
        | some book =>
          match find_open_borrow_record s pid bid with
          | none => (false, "No active borrow record found for this patron and book.")
          | some _ =>
            if !eff.close_ok then
              (false, "Database error occurred while updating return date.")
            else if !eff.update_ok then
              (false, "Database error occurred while updating book availability.")
            else (true, "Successfully returned \"" ++ book.title ++ "\"." ++
              (if (calculate_late_fee_for_book
                    (update_book_availability
                      (update_borrow_record_return_date s pid bid now) bid 1)
                    pid bid now).fee_amount > 0 then
                " Late fee: $" ++ formatCents (calculate_late_fee_for_book
                    (update_book_availability
                      (update_borrow_record_return_date s pid bid now) bid 1)
                    pid bid now).fee_amount ++ " (" ++
                  toString (calculate_late_fee_for_book
                    (update_book_availability
                      (update_borrow_record_return_date s pid bid now) bid 1)
                    pid bid now).days_overdue ++ " days overdue)."
              else " No late fees.")) := by
  unfold return_book_by_patron
  split
  · rfl
  · split
    · rfl
    · split
      · rfl
      · split
        · rfl
        · split
          · rfl
          · rfl

theorem borrow_frame (s : LibraryState) (pid : String) (bid : Nat) (now : Int)
    (eff : BorrowEffects) :
    (borrow_book_by_patron s pid bid now eff).2 = s ∨
    (borrow_book_by_patron s pid bid now eff).1 =
      (false, "Database error occurred while updating book availability.") ∨
    (borrow_book_by_patron s pid bid now eff).1.1 = true := by
  unfold borrow_book_by_patron
  split
  · exact Or.inl rfl
  · split
    · exact Or.inl rfl
    · split
      · exact Or.inl rfl
      · split
        · exact Or.inl rfl
        · split
          · exact Or.inl rfl
          · split
            · exact Or.inr (Or.inl rfl)
            · exact Or.inr (Or.inr rfl)

theorem ret_frame (s : LibraryState) (pid : String) (bid : Nat) (now : Int)
    (eff : ReturnEffects) :
    (return_book_by_patron s pid bid now eff).2 = s ∨
    (return_book_by_patron s pid bid now eff).1 =
      (false, "Database error occurred while updating book availability.") ∨
    (return_book_by_patron s pid bid now eff).1.1 = true := by
  unfold return_book_by_patron
  split
  · exact Or.inl rfl
  · split
    · exact Or.inl rfl
    · split
      · exact Or.inl rfl
      · split
        · exact Or.inl rfl
        · split
          · exact Or.inr (Or.inl rfl)
          · exact Or.inr (Or.inr rfl)

theorem assessRecord_eq (r : BorrowRecord) (now : Int) :
    assessRecord r now =
      if overdueDays r now ≤ 0 then ⟨0, 0, "Not overdue"⟩
      else if overdueDays r now ≤ 7 then
        ⟨overdueDays r now * 50, overdueDays r now, "Overdue"⟩
      else ⟨min (7 * 50 + (overdueDays r now - 7) * 100) 1500,
        overdueDays r now, "Overdue"⟩ := by
  unfold assessRecord
  by_cases h0 : overdueDays r now ≤ 0
  · simp [h0]
  · by_cases h7 : overdueDays r now ≤ 7
    · have hnc : ¬ (overdueDays r now * 50 > 1500) := by omega
      simp [h0, h7, hnc, show overdueDays r now > 0 from by omega]
    · simp [h0, h7, show overdueDays r now > 0 from by omega]
      split <;> omega

theorem add_cases (s : LibraryState) (title author isbn : String)
    (copies : Int) (ok : Bool) :
    ((add_book_to_catalog s title author isbn copies ok).1.1 = false ∧
      (add_book_to_catalog s title author isbn copies ok).2 = s) ∨
    (isbn.data.length = 13 ∧ get_book_by_isbn s isbn = none ∧
      (add_book_to_catalog s title author isbn copies ok).1.1 = true ∧
      (add_book_to_catalog s title author isbn copies ok).2 =
        insert_book s (pyStrip title) (pyStrip author) isbn copies copies) := by
  unfold add_book_to_catalog
  split
  · exact Or.inl ⟨rfl, rfl⟩
  · split
    · exact Or.inl ⟨rfl, rfl⟩
    · split
      · exact Or.inl ⟨rfl, rfl⟩
      · split
        · exact Or.inl ⟨rfl, rfl⟩
        · split
          · exact Or.inl ⟨rfl, rfl⟩
          · split
            · exact Or.inl ⟨rfl, rfl⟩
            · next hlen _ =>
              split
              · exact Or.inl ⟨rfl, rfl⟩
              · next hisbn =>
                split
                · exact Or.inr ⟨by omega, hisbn, rfl, rfl⟩
                · exact Or.inl ⟨rfl, rfl⟩

theorem calc_fee_eq (s : LibraryState) (pid : String) (bid : Nat) (now : Int)
    (r : BorrowRecord) (hr : latest_borrow_record s pid bid = some r) :
    calculate_late_fee_for_book s pid bid now = assessRecord r now := by
  unfold calculate_late_fee_for_book
  rw [hr]

/-- C1: For every borrow record assessed by the late-fee calculation,
with d the whole-day difference between the reference instant
(return_date if the record is closed, otherwise now) and the due date:
if d ≤ 0 the result is fee 0, days_overdue 0 and status Not overdue;
if 1 ≤ d ≤ 7 the fee is d times 50 cents with status Overdue; if d > 7
the fee is 350 + (d − 7) × 100 cents capped at 1500 cents, status
Overdue (amounts in cents: 0.50 dollars = 50, 15.00 dollars = 1500,
exact so the two-decimal rounding of the source is the identity). -/
theorem C1_late_fee_schedule (s : LibraryState) (pid : String) (bid : Nat)
    (now : Int) (r : BorrowRecord)
    (hr : latest_borrow_record s pid bid = some r) :
    (overdueDays r now ≤ 0 →
      calculate_late_fee_for_book s pid bid now = ⟨0, 0, "Not overdue"⟩) ∧
    (1 ≤ overdueDays r now → overdueDays r now ≤ 7 →
      calculate_late_fee_for_book s pid bid now =
        ⟨overdueDays r now * 50, overdueDays r now, "Overdue"⟩) ∧
    (7 < overdueDays r now →
      calculate_late_fee_for_book s pid bid now =
        ⟨min (7 * 50 + (overdueDays r now - 7) * 100) 1500,
          overdueDays r now, "Overdue"⟩) := by
  rw [calc_fee_eq s pid bid now r hr, assessRecord_eq]
  refine ⟨?_, ?_, ?_⟩
  · intro h
    rw [if_pos h]
  · intro h1 h7
    rw [if_neg (by omega), if_pos h7]
  · intro h7
    rw [if_neg (by omega), if_neg (by omega)]

/-- C1 witness: the three schedule branches evaluated on one concrete
record (due date 0) at day differences 0, 3 and 36. -/
theorem C1_late_fee_schedule_witness :
    calculate_late_fee_for_book ⟨[], [⟨"123456", 1, 0, 0, none⟩]⟩ "123456" 1 0 =
      ⟨0, 0, "Not overdue"⟩ ∧
    calculate_late_fee_for_book ⟨[], [⟨"123456", 1, 0, 0, none⟩]⟩ "123456" 1 (3 * 86400) =
      ⟨150, 3, "Overdue"⟩ ∧
    calculate_late_fee_for_book ⟨[], [⟨"123456", 1, 0, 0, none⟩]⟩ "123456" 1 (36 * 86400) =
      ⟨1500, 36, "Overdue"⟩ :=
  ⟨(C1_late_fee_schedule ⟨[], [⟨"123456", 1, 0, 0, none⟩]⟩ "123456" 1 0
      ⟨"123456", 1, 0, 0, none⟩ (by decide)).1 (by decide),
    ((C1_late_fee_schedule ⟨[], [⟨"123456", 1, 0, 0, none⟩]⟩ "123456" 1 (3 * 86400)
      ⟨"123456", 1, 0, 0, none⟩ (by decide)).2.1 (by decide) (by decide)).trans (by decide),
    ((C1_late_fee_schedule ⟨[], [⟨"123456", 1, 0, 0, none⟩]⟩ "123456" 1 (36 * 86400)
      ⟨"123456", 1, 0, 0, none⟩ (by decide)).2.2 (by decide)).trans (by decide)⟩

/-- C2 (amended): from a fresh catalog (distinct book ids, every book
with available_copies = total_copies ≥ 0, no borrow records), every
state reached by borrow and return operations in which all persistence
writes succeed keeps 0 ≤ available_copies ≤ total_copies for every
book; under arbitrary write failures only the lower bound
0 ≤ available_copies is maintained (the upper bound can break, see the
counterexample). -/
theorem C2_availability_invariant (s0 t u : LibraryState) (h0 : FreshState s0)
    (hok : ReachableOK s0 t) (hany : Reachable s0 u) :
    (∀ b ∈ t.books, 0 ≤ b.available_copies ∧ b.available_copies ≤ b.total_copies) ∧
    (∀ b ∈ u.books, 0 ≤ b.available_copies) := by
  have hst := fresh_invStrong s0 h0
  have hstrong := reach_invStrong s0 t hok hst
  have hweak := reach_invWeak s0 u hany ⟨hst.1, hst.2.1⟩
  refine ⟨?_, fun b hb => hweak.2 b hb⟩
  intro b hb
  refine ⟨hstrong.2.1 b hb, ?_⟩
  have hbound := hstrong.2.2 b hb
  have hnat : (0 : Int) ≤ (openCount t b.id : Int) := Int.ofNat_nonneg _
  omega

/-- C2 counterexample: from a fresh single-copy book, a borrow whose
availability decrement fails followed by a fully successful return is
a reachable sequence after which available_copies = 2 exceeds
total_copies = 1, refuting the claim for failure-including sequences. -/
theorem C2_counterexample :
    FreshState exFresh ∧ Reachable exFresh exAfterReturn ∧
    ¬ (∀ b ∈ exAfterReturn.books,
        0 ≤ b.available_copies ∧ b.available_copies ≤ b.total_copies) := by
  refine ⟨by decide, ?_, by decide⟩
  exact Relation.ReflTransGen.tail
    (Relation.ReflTransGen.single (Step.borrow exFresh "123456" 1 0 ⟨true, false⟩))
    (Step.ret exAfterBorrowFail "123456" 1 0 ⟨true, true⟩)

/-- C2 witness: the invariant instantiated after one successful borrow
(failure-free leg) and after the failing-decrement borrow (arbitrary
leg). -/
theorem C2_availability_invariant_witness :
    (∀ b ∈ (borrow_book_by_patron exFresh "123456" 1 0 ⟨true, true⟩).2.books,
        0 ≤ b.available_copies ∧ b.available_copies ≤ b.total_copies) ∧
    (∀ b ∈ exAfterBorrowFail.books, 0 ≤ b.available_copies) := by
  refine C2_availability_invariant exFresh
    (borrow_book_by_patron exFresh "123456" 1 0 ⟨true, true⟩).2 exAfterBorrowFail
    (by decide) ?_ ?_
  · exact Relation.ReflTransGen.single (StepOK.borrow exFresh "123456" 1 0)
  · exact Relation.ReflTransGen.single (Step.borrow exFresh "123456" 1 0 ⟨true, false⟩)

/-- C4 counterexample: calculate_late_fee_for_book takes no reference
instant; for an open record the result depends on the ambient clock
value read internally (modelled by the explicit now argument), so two
evaluations on the same record at different wall-clock instants
differ, refuting clock independence. -/
theorem C4_counterexample :
    calculate_late_fee_for_book ⟨[], [⟨"123456", 1, 0, 0, none⟩]⟩ "123456" 1 0 ≠
    calculate_late_fee_for_book ⟨[], [⟨"123456", 1, 0, 0, none⟩]⟩ "123456" 1 (10 * 86400) := by
  decide

/-- C4 (amended): the late-fee computation reads the ambient clock
(datetime.now) internally when the assessed record is open, rather
than accepting the instant as a parameter; for a closed record
(return_date set) the assessment is independent of the clock: any two
evaluations on the same store return identical results. -/
theorem C4_closed_record_clock_independent (s : LibraryState) (pid : String)
    (bid : Nat) (now1 now2 : Int) (r : BorrowRecord)
    (hr : latest_borrow_record s pid bid = some r)
    (hclosed : r.return_date.isSome = true) :
    calculate_late_fee_for_book s pid bid now1 =
      calculate_late_fee_for_book s pid bid now2 := by
  rw [calc_fee_eq s pid bid now1 r hr, calc_fee_eq s pid bid now2 r hr]
  unfold assessRecord overdueDays checkDateOf
  cases hret : r.return_date with
  | none => rw [hret] at hclosed; simp at hclosed
  | some d => simp only [hret]

/-- C4 witness: a closed record assessed at two far-apart clock
instants yields the same result. -/
theorem C4_closed_record_clock_independent_witness :
    calculate_late_fee_for_book ⟨[], [⟨"123456", 1, 0, 0, some 86400⟩]⟩ "123456" 1 0 =
      calculate_late_fee_for_book ⟨[], [⟨"123456", 1, 0, 0, some 86400⟩]⟩ "123456" 1 999999 :=
  C4_closed_record_clock_independent ⟨[], [⟨"123456", 1, 0, 0, some 86400⟩]⟩
    "123456" 1 0 999999 ⟨"123456", 1, 0, 0, some 86400⟩ (by decide) (by decide)

/-- C3: For a valid 6-digit patron id and an existing book with
available copies, borrow_book_by_patron is rejected with the
maximum-borrowing-limit message exactly when the patron holds 5 or
more open borrow records across all books (comparison is 5 or more);
with 4 open records the borrow succeeds (given the two persistence
writes succeed). -/
theorem C3_borrow_limit (s : LibraryState) (pid : String) (bid : Nat) (now : Int)
    (eff : BorrowEffects) (book : Book)
    (hvalid : validPatronId pid = true)
    (hbook : get_book_by_id s bid = some book)
    (havail : 0 < book.available_copies) :
    (((borrow_book_by_patron s pid bid now eff).1.1 = false ∧
        (borrow_book_by_patron s pid bid now eff).1.2 =
          "You have reached the maximum borrowing limit of 5 books.") ↔
      5 ≤ get_patron_borrow_count s pid) ∧
    (get_patron_borrow_count s pid = 4 → eff.insert_ok = true → eff.update_ok = true →
      (borrow_book_by_patron s pid bid now eff).1.1 = true) := by
  have hres := borrow_result_eq s pid bid now eff
  simp only [hvalid, hbook, Bool.not_true, Bool.false_eq_true, if_false] at hres
  rw [if_neg (by omega : ¬ book.available_copies ≤ 0)] at hres
  by_cases hc : get_patron_borrow_count s pid ≥ 5
  · rw [if_pos hc] at hres
    refine ⟨⟨fun _ => hc, fun _ => ⟨by rw [hres], by rw [hres]⟩⟩, ?_⟩
    intro h4 _ _
    exact absurd hc (by omega)
  · rw [if_neg hc] at hres
    constructor
    · constructor
      · rintro ⟨hf, hm⟩
        exfalso
        rcases eff with ⟨i, u⟩
        cases i
        · simp only [Bool.not_false, if_true] at hres
          rw [hres] at hm
          exact absurd hm (by decide)
        · cases u
          · simp only [Bool.not_true, Bool.not_false, Bool.false_eq_true, if_false,
              if_true] at hres
            rw [hres] at hm
            exact absurd hm (by decide)
          · simp only [Bool.not_true, Bool.false_eq_true, if_false] at hres
            rw [hres] at hf
            simp at hf
      · intro h5
        exact absurd h5 hc
    · intro _ hi hu
      rw [hi, hu] at hres
      simp only [Bool.not_true, Bool.false_eq_true, if_false] at hres
      rw [hres]

/-- C3 witness: with 4 open records on other books, the 5th borrow is
not rejected by the limit and succeeds. -/
theorem C3_borrow_limit_witness :
    (((borrow_book_by_patron
          ⟨[⟨1, "T", "A", "1234567890123", 1, 1⟩],
            [⟨"123456", 2, 0, 0, none⟩, ⟨"123456", 3, 0, 0, none⟩,
              ⟨"123456", 4, 0, 0, none⟩, ⟨"123456", 5, 0, 0, none⟩]⟩
          "123456" 1 0 ⟨true, true⟩).1.1 = false ∧
        (borrow_book_by_patron
          ⟨[⟨1, "T", "A", "1234567890123", 1, 1⟩],
            [⟨"123456", 2, 0, 0, none⟩, ⟨"123456", 3, 0, 0, none⟩,
              ⟨"123456", 4, 0, 0, none⟩, ⟨"123456", 5, 0, 0, none⟩]⟩
          "123456" 1 0 ⟨true, true⟩).1.2 =
          "You have reached the maximum borrowing limit of 5 books.") ↔
      5 ≤ get_patron_borrow_count
        ⟨[⟨1, "T", "A", "1234567890123", 1, 1⟩],
          [⟨"123456", 2, 0, 0, none⟩, ⟨"123456", 3, 0, 0, none⟩,
            ⟨"123456", 4, 0, 0, none⟩, ⟨"123456", 5, 0, 0, none⟩]⟩ "123456") ∧
    (get_patron_borrow_count
        ⟨[⟨1, "T", "A", "1234567890123", 1, 1⟩],
          [⟨"123456", 2, 0, 0, none⟩, ⟨"123456", 3, 0, 0, none⟩,
            ⟨"123456", 4, 0, 0, none⟩, ⟨"123456", 5, 0, 0, none⟩]⟩ "123456" = 4 →
      (⟨true, true⟩ : BorrowEffects).insert_ok = true →
      (⟨true, true⟩ : BorrowEffects).update_ok = true →
      (borrow_book_by_patron
        ⟨[⟨1, "T", "A", "1234567890123", 1, 1⟩],
          [⟨"123456", 2, 0, 0, none⟩, ⟨"123456", 3, 0, 0, none⟩,
            ⟨"123456", 4, 0, 0, none⟩, ⟨"123456", 5, 0, 0, none⟩]⟩
        "123456" 1 0 ⟨true, true⟩).1.1 = true) :=
  C3_borrow_limit
    ⟨[⟨1, "T", "A", "1234567890123", 1, 1⟩],
      [⟨"123456", 2, 0, 0, none⟩, ⟨"123456", 3, 0, 0, none⟩,
        ⟨"123456", 4, 0, 0, none⟩, ⟨"123456", 5, 0, 0, none⟩]⟩
    "123456" 1 0 ⟨true, true⟩ ⟨1, "T", "A", "1234567890123", 1, 1⟩
    (by decide) (by decide) (by decide)

/-- C8: For a valid patron id, a return with no open record for the
pair fails with the no-active-borrow-record message (even when a
closed record exists, as the witness instantiates), while an unknown
book id fails with the distinct book-not-found message. -/
theorem C8_return_requires_open_record (s : LibraryState) (pid : String)
    (bid bid2 : Nat) (now : Int) (eff : ReturnEffects) (book : Book)
    (hvalid : validPatronId pid = true)
    (hbook : get_book_by_id s bid = some book)
    (hnorec : find_open_borrow_record s pid bid = none)
    (hnobook : get_book_by_id s bid2 = none) :
    (return_book_by_patron s pid bid now eff).1 =
      (false, "No active borrow record found for this patron and book.") ∧
    (return_book_by_patron s pid bid2 now eff).1 = (false, "Book not found.") ∧
    ("No active borrow record found for this patron and book." : String) ≠
      "Book not found." := by
  refine ⟨?_, ?_, by decide⟩
  · have hres := ret_result_eq s pid bid now eff
    simp only [hvalid, hbook, hnorec, Bool.not_true, Bool.false_eq_true, if_false] at hres
    exact hres
  · have hres := ret_result_eq s pid bid2 now eff
    simp only [hvalid, hnobook, Bool.not_true, Bool.false_eq_true, if_false] at hres
    exact hres

/-- C8 witness: the pair (patron, book 1) has only a closed record, so
the return is rejected with the no-active-record message; book 2 does
not exist and yields the distinct book-not-found message. -/
theorem C8_return_requires_open_record_witness :
    (return_book_by_patron
        ⟨[⟨1, "T", "A", "1234567890123", 1, 1⟩], [⟨"123456", 1, 0, 0, some 5⟩]⟩
        "123456" 1 0 ⟨true, true⟩).1 =
      (false, "No active borrow record found for this patron and book.") ∧
    (return_book_by_patron
        ⟨[⟨1, "T", "A", "1234567890123", 1, 1⟩], [⟨"123456", 1, 0, 0, some 5⟩]⟩
        "123456" 2 0 ⟨true, true⟩).1 = (false, "Book not found.") ∧
    ("No active borrow record found for this patron and book." : String) ≠
      "Book not found." :=
  C8_return_requires_open_record
    ⟨[⟨1, "T", "A", "1234567890123", 1, 1⟩], [⟨"123456", 1, 0, 0, some 5⟩]⟩
    "123456" 1 2 0 ⟨true, true⟩ ⟨1, "T", "A", "1234567890123", 1, 1⟩
    (by decide) (by decide) (by decide) (by decide)

/-- C10: whenever borrow_book_by_patron or return_book_by_patron
fails on a pre-write check (invalid patron id, unknown book, no
available copy, borrowing limit, or no open borrow record, identified
by the failure flag and the corresponding message), the store is
exactly as before the call.  The two operations are quantified over
independent inputs, so each implication covers every failure of its
operation on its own. -/
theorem C10_precheck_failure_preserves_state (sB : LibraryState) (pidB : String)
    (bidB : Nat) (nowB : Int) (effB : BorrowEffects)
    (sR : LibraryState) (pidR : String) (bidR : Nat) (nowR : Int)
    (effR : ReturnEffects) :
    ((borrow_book_by_patron sB pidB bidB nowB effB).1.1 = false →
      (borrow_book_by_patron sB pidB bidB nowB effB).1.2 ∈
        ["Invalid patron ID. Must be exactly 6 digits.", "Book not found.",
          "This book is currently not available.",
          "You have reached the maximum borrowing limit of 5 books."] →
      (borrow_book_by_patron sB pidB bidB nowB effB).2 = sB) ∧
    ((return_book_by_patron sR pidR bidR nowR effR).1.1 = false →
      (return_book_by_patron sR pidR bidR nowR effR).1.2 ∈
        ["Invalid patron ID. Must be exactly 6 digits.", "Book not found.",
          "No active borrow record found for this patron and book."] →
      (return_book_by_patron sR pidR bidR nowR effR).2 = sR) := by
  constructor
  · intro hbf hbm
    rcases borrow_frame sB pidB bidB nowB effB with h | h | h
    · exact h
    · have h2 : (borrow_book_by_patron sB pidB bidB nowB effB).1.2 =
          "Database error occurred while updating book availability." := by rw [h]
      rw [h2] at hbm
      exact absurd hbm (by decide)
    · rw [h] at hbf
      exact absurd hbf (by decide)
  · intro hrf hrm
    rcases ret_frame sR pidR bidR nowR effR with h | h | h
    · exact h
    · have h2 : (return_book_by_patron sR pidR bidR nowR effR).1.2 =
          "Database error occurred while updating book availability." := by rw [h]
      rw [h2] at hrm
      exact absurd hrm (by decide)
    · rw [h] at hrf
      exact absurd hrf (by decide)

/-- C10 witness: a borrow rejected as not available while the patron
holds the open record for that very book, and a return rejected with
no-active-record on a valid patron and existing, available book; both
stores are untouched.  The two instantiations are independent. -/
theorem C10_precheck_failure_preserves_state_witness :
    (borrow_book_by_patron
        ⟨[⟨1, "T", "A", "1234567890123", 1, 0⟩], [⟨"123456", 1, 0, 0, none⟩]⟩
        "123456" 1 0 ⟨true, true⟩).2 =
      ⟨[⟨1, "T", "A", "1234567890123", 1, 0⟩], [⟨"123456", 1, 0, 0, none⟩]⟩ ∧
    (return_book_by_patron ⟨[⟨1, "T", "A", "1234567890123", 1, 1⟩], []⟩
        "123456" 1 0 ⟨true, true⟩).2 =
      ⟨[⟨1, "T", "A", "1234567890123", 1, 1⟩], []⟩ :=
  ⟨(C10_precheck_failure_preserves_state
      ⟨[⟨1, "T", "A", "1234567890123", 1, 0⟩], [⟨"123456", 1, 0, 0, none⟩]⟩
      "123456" 1 0 ⟨true, true⟩
      ⟨[⟨1, "T", "A", "1234567890123", 1, 1⟩], []⟩
      "123456" 1 0 ⟨true, true⟩).1 (by decide) (by decide),
    (C10_precheck_failure_preserves_state
      ⟨[⟨1, "T", "A", "1234567890123", 1, 0⟩], [⟨"123456", 1, 0, 0, none⟩]⟩
      "123456" 1 0 ⟨true, true⟩
      ⟨[⟨1, "T", "A", "1234567890123", 1, 1⟩], []⟩
      "123456" 1 0 ⟨true, true⟩).2 (by decide) (by decide)⟩

theorem search_isbn_after_insert (s : LibraryState) (t a isbn : String) (c1 c2 : Int)
    (hnone : get_book_by_isbn s isbn = none) (hne : (isbn == "") = false) :
    search_books_in_catalog (insert_book s t a isbn c1 c2) isbn "isbn" =
      [⟨(s.books.map (fun b => b.id)).foldr max 0 + 1, t, a, isbn, c1, c2⟩] := by
  unfold search_books_in_catalog insert_book
  simp only [hne, Bool.false_eq_true, if_false,
    show (["title", "author", "isbn"].contains ("isbn")) = true by decide,
    Bool.not_true, show (("isbn" : String) == "isbn") = true by decide, if_true]
  rw [List.filter_append]
  have h1 : s.books.filter (fun b => b.isbn == isbn) = [] := by
    rw [List.filter_eq_nil_iff]
    intro b hb
    have := List.find?_eq_none.mp hnone b hb
    simpa using this
  rw [h1]
  simp [sortByTitle, insertByTitle, List.filter]

/-- C5 (spec-modelled): pay_late_fees contacts the gateway zero times
and returns the specific failure with a null transaction id whenever
the patron id is malformed, the fee information is missing or lacks a
fee amount, the fee amount is 0, or the book is unknown. -/
theorem C5_pay_no_gateway_on_failures (pid : String) (info : Option FeeInfo)
    (book : Option Book) (gw : GatewayOutcome (Bool × Option String × String)) :
    (validPatronId pid = false →
      pay_late_fees pid info book gw = ((false, "Invalid patron ID", none), 0)) ∧
    (validPatronId pid = true → feeAmountOf info = none →
      pay_late_fees pid info book gw = ((false, "Unable to calculate late fees", none), 0)) ∧
    (validPatronId pid = true → feeAmountOf info = some 0 →
      pay_late_fees pid info book gw = ((false, "No late fees to pay", none), 0)) ∧
    (∀ amt, validPatronId pid = true → feeAmountOf info = some amt → amt ≠ 0 →
      book = none →
      pay_late_fees pid info book gw = ((false, "Book not found", none), 0)) := by
  refine ⟨?_, ?_, ?_, ?_⟩
  · intro hv
    simp [pay_late_fees, hv]
  · intro hv hfee
    simp [pay_late_fees, hv, hfee]
  · intro hv hfee
    simp [pay_late_fees, hv, hfee]
  · intro amt hv hfee hne hb
    simp [pay_late_fees, hv, hfee, hne, hb]

/-- C5 witness: the four no-gateway failure modes evaluated on
concrete inputs. -/
theorem C5_pay_no_gateway_on_failures_witness :
    pay_late_fees "12345" none none (GatewayOutcome.ok (true, some "t", "m")) =
      ((false, "Invalid patron ID", none), 0) ∧
    pay_late_fees "123456" none none (GatewayOutcome.ok (true, some "t", "m")) =
      ((false, "Unable to calculate late fees", none), 0) ∧
    pay_late_fees "123456" (some ⟨none, 5, "Overdue"⟩) none
        (GatewayOutcome.ok (true, some "t", "m")) =
      ((false, "Unable to calculate late fees", none), 0) ∧
    pay_late_fees "123456" (some ⟨some 0, 0, "Not overdue"⟩) none
        (GatewayOutcome.ok (true, some "t", "m")) =
      ((false, "No late fees to pay", none), 0) ∧
    pay_late_fees "123456" (some ⟨some 550, 5, "Overdue"⟩) none
        (GatewayOutcome.ok (true, some "t", "m")) =
      ((false, "Book not found", none), 0) :=
  ⟨(C5_pay_no_gateway_on_failures "12345" none none
      (GatewayOutcome.ok (true, some "t", "m"))).1 (by decide),
    (C5_pay_no_gateway_on_failures "123456" none none
      (GatewayOutcome.ok (true, some "t", "m"))).2.1 (by decide) rfl,
    (C5_pay_no_gateway_on_failures "123456" (some ⟨none, 5, "Overdue"⟩) none
      (GatewayOutcome.ok (true, some "t", "m"))).2.1 (by decide) rfl,
    (C5_pay_no_gateway_on_failures "123456" (some ⟨some 0, 0, "Not overdue"⟩) none
      (GatewayOutcome.ok (true, some "t", "m"))).2.2.1 (by decide) rfl,
    (C5_pay_no_gateway_on_failures "123456" (some ⟨some 550, 5, "Overdue"⟩) none
      (GatewayOutcome.ok (true, some "t", "m"))).2.2.2 550 (by decide) rfl
      (by decide) rfl⟩

/-- C6 (spec-modelled): with a well-formed transaction id,
refund_late_fee_payment rejects amounts of at most 0 and amounts
strictly above 1500 cents with the specific messages and zero gateway
calls, while an amount of exactly 1500 cents reaches the gateway
(one call). -/
theorem C6_refund_amount_validation (txn : String) (amount : Int)
    (gw : GatewayOutcome (Bool × String))
    (hvalid : (("txn_".data).isPrefixOf txn.data) = true) :
    (amount ≤ 0 →
      refund_late_fee_payment txn amount gw =
        ((false, "Refund amount must be greater than 0"), 0)) ∧
    (1500 < amount →
      refund_late_fee_payment txn amount gw =
        ((false, "Refund amount exceeds maximum late fee"), 0)) ∧
    (refund_late_fee_payment txn 1500 gw).2 = 1 := by
  refine ⟨?_, ?_, ?_⟩
  · intro h0
    simp [refund_late_fee_payment, hvalid, h0]
  · intro h15
    simp [refund_late_fee_payment, hvalid, show ¬ amount ≤ 0 from by omega,
      show 1500 < amount from h15]
  · simp only [refund_late_fee_payment, hvalid, Bool.not_true, Bool.false_eq_true,
      if_false, show ¬ (1500 : Int) ≤ 0 from by omega,
      show ¬ (1500 : Int) > 1500 from by omega]
    cases gw with
    | ok p =>
      obtain ⟨flag, msg⟩ := p
      cases flag <;> rfl
    | fault t => rfl

/-- C6 witness: amount -500 and amount 2000 are rejected without a
gateway call; amount 1500 exactly reaches the gateway. -/
theorem C6_refund_amount_validation_witness :
    refund_late_fee_payment "txn_123456_test" (-500)
        (GatewayOutcome.ok (true, "ok")) =
      ((false, "Refund amount must be greater than 0"), 0) ∧
    refund_late_fee_payment "txn_123456_test" 2000
        (GatewayOutcome.ok (true, "ok")) =
      ((false, "Refund amount exceeds maximum late fee"), 0) ∧
    (refund_late_fee_payment "txn_123456_test" 1500
        (GatewayOutcome.ok (true, "ok"))).2 = 1 :=
  ⟨(C6_refund_amount_validation "txn_123456_test" (-500)
      (GatewayOutcome.ok (true, "ok")) (by decide)).1 (by decide),
    (C6_refund_amount_validation "txn_123456_test" 2000
      (GatewayOutcome.ok (true, "ok")) (by decide)).2.1 (by decide),
    (C6_refund_amount_validation "txn_123456_test" 1500
      (GatewayOutcome.ok (true, "ok")) (by decide)).2.2⟩

/-- C7 counterexample: on a gateway-reported decline the message is
prefixed with Refund failed and is not the verbatim gateway message,
refuting verbatim propagation for the failure case. -/
theorem C7_counterexample :
    (refund_late_fee_payment "txn_123456_test" 1000
        (GatewayOutcome.ok (false, "Transaction already refunded"))).1.2 ≠
      "Transaction already refunded" := by
  decide

/-- C7 (amended): whenever the gateway returns normally on the
validated path, refund_late_fee_payment propagates the gateway
success flag; the gateway message is returned verbatim on success and
prefixed with Refund failed on a gateway-reported decline. -/
theorem C7_gateway_normal_return (txn : String) (amount : Int) (flag : Bool)
    (msg : String)
    (hvalid : (("txn_".data).isPrefixOf txn.data) = true)
    (hpos : 0 < amount) (hmax : amount ≤ 1500) :
    refund_late_fee_payment txn amount (GatewayOutcome.ok (flag, msg)) =
      ((flag, if flag then msg else "Refund failed: " ++ msg), 1) := by
  unfold refund_late_fee_payment
  simp only [hvalid, Bool.not_true, Bool.false_eq_true, if_false]
  rw [if_neg (by omega), if_neg (by omega)]
  cases flag
  · rfl
  · rfl

/-- C7 witness: flag propagation and message shaping on both a gateway
success and a gateway decline. -/
theorem C7_gateway_normal_return_witness :
    refund_late_fee_payment "txn_123456_test" 550
        (GatewayOutcome.ok (true, "Refund processed")) =
      ((true, "Refund processed"), 1) ∧
    refund_late_fee_payment "txn_999999_test" 1000
        (GatewayOutcome.ok (false, "Transaction already refunded")) =
      ((false, "Refund failed: Transaction already refunded"), 1) :=
  ⟨(C7_gateway_normal_return "txn_123456_test" 550 true "Refund processed"
      (by decide) (by decide) (by decide)).trans (by decide),
    (C7_gateway_normal_return "txn_999999_test" 1000 false
      "Transaction already refunded" (by decide) (by decide) (by decide)).trans
      (by decide)⟩

/-- C9: after a successful add_book_to_catalog with ISBN i, in a
catalog whose ISBNs are pairwise distinct, the exact isbn search for i
returns exactly one book whose isbn is i; and a search with a kind
outside title, author, isbn returns the empty list for every term. -/
theorem C9_search_roundtrip (s s2 : LibraryState) (title author isbn : String)
    (copies : Int) (ok : Bool) (term kind : String)
    (hadd : (add_book_to_catalog s title author isbn copies ok).1.1 = true)
    (_hnodup : ((add_book_to_catalog s title author isbn copies ok).2.books.map
        (fun b => b.isbn)).Nodup)
    (hkind : kind ∉ ["title", "author", "isbn"]) :
    ((search_books_in_catalog (add_book_to_catalog s title author isbn copies ok).2
        isbn "isbn").length = 1 ∧
      ∀ b ∈ search_books_in_catalog (add_book_to_catalog s title author isbn copies ok).2
          isbn "isbn", b.isbn = isbn) ∧
    search_books_in_catalog s2 term kind = [] := by
  constructor
  · rcases add_cases s title author isbn copies ok with ⟨hf, _⟩ | ⟨hlen, hnone, _, hstate⟩
    · rw [hf] at hadd
      exact absurd hadd (by decide)
    · rw [hstate]
      have hne : (isbn == "") = false := by
        rw [beq_eq_false_iff_ne]
        intro h
        rw [h] at hlen
        simp at hlen
      rw [search_isbn_after_insert s (pyStrip title) (pyStrip author) isbn copies copies
        hnone hne]
      refine ⟨rfl, ?_⟩
      intro b hb
      rw [List.mem_singleton] at hb
      rw [hb]
  · unfold search_books_in_catalog
    by_cases hterm : (term == "") = true
    · rw [if_pos hterm]
    · rw [if_neg hterm]
      have hc : (["title", "author", "isbn"].contains kind) = false := by
        rw [Bool.eq_false_iff]
        intro hcon
        exact hkind (List.mem_of_elem_eq_true hcon)
      simp only [hc, Bool.not_false, if_true]

/-- C9 witness: adding a book to the empty catalog and searching its
ISBN returns that single book; a bogus search kind yields the empty
list. -/
theorem C9_search_roundtrip_witness :
    ((search_books_in_catalog
        (add_book_to_catalog ⟨[], []⟩ "Title" "Auth" "1234567890123" 3 true).2
        "1234567890123" "isbn").length = 1 ∧
      ∀ b ∈ search_books_in_catalog
          (add_book_to_catalog ⟨[], []⟩ "Title" "Auth" "1234567890123" 3 true).2
          "1234567890123" "isbn", b.isbn = "1234567890123") ∧
    search_books_in_catalog exFresh "x" "bogus" = [] :=
  C9_search_roundtrip ⟨[], []⟩ exFresh "Title" "Auth" "1234567890123" 3 true
    "x" "bogus" (by decide) (by decide) (by decide)

end LibraryService
